import Mathlib

/-!
Shallow embedding of the certification-workflow backend
(agtech-cert-backend): the inspection-to-certificate pipeline.

Embedded source:
* `src/utils/inspection` (bundled in `src/run-migration.js`):
  `calculateComplianceScore`, `isEligibleForCertification`,
  `isChecklistComplete`, the fixed five checklist keys.
* `src/utils/pdfGenerator` (bundled in `src/utils/validation.js`):
  `calculateExpiryDate` (+1 year).
* `src/controllers/FarmerController.js` (InspectionController class):
  `calculateExpiryDate` (+3 years), `isEligibleForCertification`.
* `src/unnamed/part_005` (inspections route): `PUT /:id` (update with
  score recomputation and auto certificate issuance),
  `POST /:id/approve`, `DELETE /:id`.
* `src/unnamed/part_006` (older inspections route): `DELETE /:id`.
* `src/routes/certificates.js` `POST /` together with the Certificate
  model (`src/unnamed/part_019`): direct certificate creation.

Modelling conventions: JavaScript checklist answers are four-valued
(`true`, `false`, `null`, `undefined`); statuses are plain strings, as
the route handlers never restrict them to an enum; database tables are
Lean lists; `Date.now()` / generated certificate numbers enter the
operations as explicit arguments; the PDF renderer is a boolean oracle
(`renderOk`) standing for success or failure of the external pdfkit
stream.  `Math.round` on the nonnegative ratios that occur here is
round-half-up, modelled exactly on rationals as `(200*a + b) / (2*b)`.
Free-text columns (notes, findings, dates of scheduling) that no claim
mentions are omitted from the record types.
-/

/-- JavaScript value of one checklist answer: `true`, `false`, `null`
or `undefined` (absent).  `validateChecklist` admits `true`, `false`
and `null`; `createChecklist` initialises answers to `undefined`. -/
inductive Answer where
  | aTrue
  | aFalse
  | aNull
  | aUndef
deriving DecidableEq, Repr

open Answer

/-- The fixed five-key checklist (CHECKLIST_QUESTIONS in
src/utils/inspection): synthetic inputs, buffer zones, organic seed,
compost management, record keeping. -/
structure Checklist where
  syntheticInputs : Answer
  bufferZones : Answer
  organicSeed : Answer
  compostManagement : Answer
  recordKeeping : Answer
deriving DecidableEq, Repr

/-- The answers of the five fixed keys, in `Object.keys` order. -/
def Checklist.answers (c : Checklist) : List Answer :=
  [c.syntheticInputs, c.bufferZones, c.organicSeed, c.compostManagement,
   c.recordKeeping]

/-- `Math.round((a / b) * 100)` for `0 ≤ a ≤ b`, `b > 0`: round half up,
computed exactly on rationals: `⌊100*a/b + 1/2⌋ = ⌊(200a + b)/(2b)⌋`. -/
def jsRound100 (a b : Nat) : Nat :=
  (200 * a + b) / (2 * b)

/-- `calculateComplianceScore` (src/utils/inspection): filter the items
whose answer is not `undefined` (note: a `null` answer passes this
filter), return 0 when none remain, else the rounded percentage of
`true` answers among them. -/
def calculateComplianceScore (checklist : List Answer) : Nat :=
  let answeredQuestions := checklist.filter (fun item => item ≠ aUndef)
  if answeredQuestions.length = 0 then 0
  else
    let yesAnswers := answeredQuestions.filter (fun item => item = aTrue)
    jsRound100 yesAnswers.length answeredQuestions.length

/-- The scoring formula as the specification words it: consider only
items whose answer is `true` or `false` (exclude unanswered), return
`round(100 * countTrue / countAnswered)`, and 0 when nothing is
answered.  Kept separate from `calculateComplianceScore` so the two can
be compared. -/
def specComplianceScore (checklist : List Answer) : Nat :=
  let answered := checklist.filter (fun item => item = aTrue ∨ item = aFalse)
  if answered.length = 0 then 0
  else
    let yes := answered.filter (fun item => item = aTrue)
    jsRound100 yes.length answered.length

/-- `isEligibleForCertification` (src/utils/inspection and the identical
method on InspectionController): eligible iff the score is at least 80. -/
def isEligibleForCertification (complianceScore : Nat) : Bool :=
  80 ≤ complianceScore

/-- `isChecklistComplete` (src/utils/inspection): every fixed key is
answered strictly `true` or `false`. -/
def isChecklistComplete (c : Checklist) : Bool :=
  c.answers.all (fun a => a = aTrue || a = aFalse)

/-- Calendar date, as the `YYYY-MM-DD` part of a JS `Date`. -/
structure Date where
  year : Int
  month : Nat
  day : Nat
deriving DecidableEq, Repr

/-- Gregorian leap-year test, as JS `Date` uses internally. -/
def isLeapYear (y : Int) : Bool :=
  (y % 4 == 0 && y % 100 != 0) || y % 400 == 0

/-- `date.setFullYear(y)` keeps month and day except that Feb 29 in a
non-leap target year rolls over to Mar 1. -/
def setFullYear (d : Date) (y : Int) : Date :=
  if d.month = 2 ∧ d.day = 29 ∧ ¬ isLeapYear y then ⟨y, 3, 1⟩
  else ⟨y, d.month, d.day⟩

/-- `calculateExpiryDate` (src/utils/pdfGenerator, bundled in
src/utils/validation.js): issue date plus one year. -/
def calculateExpiryDate (issueDate : Date) : Date :=
  setFullYear issueDate (issueDate.year + 1)

namespace InspectionController

/-- `InspectionController.calculateExpiryDate`
(src/controllers/FarmerController.js): issue date plus three years. -/
def calculateExpiryDate (issueDate : Date) : Date :=
  setFullYear issueDate (issueDate.year + 3)

end InspectionController

/-- Row of the `inspections` table (columns a claim mentions).  The
route handlers never constrain `status` to an enum, so it is a plain
string.  `complianceScore` stands for the stored score: the schema's
`score` column holds the computed compliance score (the model maps the
handlers' complianceScore field into it), and mysql2 returns the
DECIMAL column as a string, always truthy, so the handlers' expression
`inspection.score || inspection.compliance_score` reads that stored
value. -/
structure Inspection where
  id : Nat
  farmId : Nat
  status : String
  complianceScore : Nat
  checklist : Checklist
deriving DecidableEq, Repr

/-- Row of the `certificates` table (columns a claim mentions). -/
structure Certificate where
  id : Nat
  farmId : Nat
  certificateNumber : String
  issueDate : Date
  expiryDate : Date
  status : String
  certificationBody : String
  scope : String
  pdfUrl : Option String
deriving DecidableEq, Repr

/-- Row of the `farms` table (columns a claim mentions). -/
structure Farm where
  id : Nat
  farmerId : Nat
deriving DecidableEq, Repr

/-- Row of the `farmers` table (columns a claim mentions). -/
structure Farmer where
  id : Nat
deriving DecidableEq, Repr

/-- Status-history record written to `audit_logs` by the update handler
of src/unnamed/part_005 (old status, new status, reason; `changedBy` is
not recorded by the INSERT, and the timestamp is the insert time). -/
structure AuditLog where
  tableName : String
  recordId : Nat
  action : String
  oldStatus : String
  newStatus : String
  reason : String
deriving DecidableEq, Repr

/-- The backing store: one list per table the claims touch. -/
structure DB where
  inspections : List Inspection
  certificates : List Certificate
  farms : List Farm
  farmers : List Farmer
  auditLogs : List AuditLog
deriving DecidableEq, Repr

/-- `db.findById('inspections', id)`. -/
def findInspection (db : DB) (id : Nat) : Option Inspection :=
  db.inspections.find? (fun i => i.id = id)

/-- `db.findById('farms', id)`. -/
def findFarm (db : DB) (id : Nat) : Option Farm :=
  db.farms.find? (fun f => f.id = id)

/-- `db.findById('farmers', id)`. -/
def findFarmer (db : DB) (id : Nat) : Option Farmer :=
  db.farmers.find? (fun f => f.id = id)

/-- `SELECT * FROM certificates WHERE farm_id = ? AND status = "active"`. -/
def activeCertificatesForFarm (db : DB) (farmId : Nat) : List Certificate :=
  db.certificates.filter (fun c => c.farmId = farmId ∧ c.status = "active")

/-- Fresh AUTO_INCREMENT primary key for a new certificate row. -/
def nextCertificateId (db : DB) : Nat :=
  (db.certificates.map (fun c => c.id)).foldl max 0 + 1

/-- Request body of `PUT /api/inspections/:id` (fields a claim
mentions).  `score` is the frontend-supplied score field. -/
structure UpdateBody where
  status : Option String
  checklist : Option Checklist
  score : Option Nat
  reason : Option String
deriving DecidableEq, Repr

/-- The `updateData.complianceScore` computed by the update handler:
recomputed from the checklist when one is supplied, then overridden by
a supplied `score` field; absent when the body carries neither. -/
def newComplianceScore (body : UpdateBody) : Option Nat :=
  match body.score with
  | some s => some s
  | none => body.checklist.map (fun c => calculateComplianceScore c.answers)

/-- The inspection row after `Inspection.update(id, updateData)`
(src/unnamed/part_018, lines 35-56).  The status is stored under the
model's truthiness guard `if (data.status)`: a falsy (empty-string)
status is silently ignored and the old status kept.  The checklist is
stored when supplied (`if (data.checklist)`: an object is always
truthy), and the score column whenever the handler's `updateData`
carries a score or complianceScore field. -/
def applyUpdate (i : Inspection) (body : UpdateBody) : Inspection :=
  { i with
    status :=
      match body.status with
      | some s => if s ≠ "" then s else i.status
      | none => i.status
    checklist := body.checklist.getD i.checklist
    complianceScore := (newComplianceScore body).getD i.complianceScore }

/-- Certificate row persisted by the auto-issuance block of the update
handler (src/unnamed/part_005, PUT): pdf reference from the rendered
file, one-year expiry. -/
def mkAutoCertificate (db : DB) (farmId : Nat) (certNo : String) (today : Date) :
    Certificate :=
  { id := nextCertificateId db
    farmId := farmId
    certificateNumber := certNo
    issueDate := today
    expiryDate := calculateExpiryDate today
    status := "active"
    certificationBody := "Kenya Organic Agriculture Network"
    scope := "Organic crop production"
    pdfUrl := some ("/certificates/certificate_" ++ certNo ++ ".pdf") }

/-- Certificate row persisted by the approve handler
(src/unnamed/part_005, POST /:id/approve): `pdf_url` is left null (the
PDF bytes are streamed to the caller, not stored), one-year expiry. -/
def mkApproveCertificate (db : DB) (farmId : Nat) (certNo : String) (today : Date) :
    Certificate :=
  { id := nextCertificateId db
    farmId := farmId
    certificateNumber := certNo
    issueDate := today
    expiryDate := calculateExpiryDate today
    status := "active"
    certificationBody := "Kenya Organic Agriculture Network"
    scope := "Organic crop production"
    pdfUrl := none }

inductive UpdateResult where
  | ok
  | notFound
deriving DecidableEq, Repr

/-- `PUT /api/inspections/:id` (src/unnamed/part_005, lines 382-502).
Steps, in handler order: fetch the row (404 when absent); build
`updateData` (checklist recomputation then score override); store the
row unconditionally -- no transition-graph check and no
`isChecklistComplete` check; when the requested status is exactly
`completed` and `updateData.complianceScore >= 80` (or the raw body
score is), issue a certificate automatically unless an active one
already exists for the farm, the farm/farmer lookup fails, or the PDF
render fails (that failure is caught and the update still succeeds);
finally append an audit row when the status actually changed.
`today` stands for `new Date()`, `certNo` for the generated
certificate number, `renderOk` for the PDF renderer outcome.  The
existing-certificate query and the audit row read the pre-update
fetched row, as the handler does; only the inspections table is
touched by the row update, so the certificate append works on the
original certificates list. -/
def updateInspection (db : DB) (id : Nat) (body : UpdateBody)
    (today : Date) (certNo : String) (renderOk : Bool) : UpdateResult × DB :=
  match findInspection db id with
  | none => (.notFound, db)
  | some inspection =>
    let updated := applyUpdate inspection body
    let scoreHigh : Bool :=
      match newComplianceScore body with
      | some s => decide (80 ≤ s)
      | none => false
    let issueCert : Bool :=
      decide (body.status = some "completed") && scoreHigh &&
      decide (activeCertificatesForFarm db inspection.farmId = []) &&
      (match findFarm db inspection.farmId with
       | some farm => (findFarmer db farm.farmerId).isSome
       | none => false) &&
      renderOk
    let certsAfter :=
      if issueCert then
        db.certificates ++ [mkAutoCertificate db inspection.farmId certNo today]
      else db.certificates
    let auditAfter :=
      match body.status with
      | some newStatus =>
        if newStatus ≠ "" ∧ inspection.status ≠ newStatus then
          db.auditLogs ++
            [{ tableName := "inspections"
               recordId := id
               action := "UPDATE"
               oldStatus := inspection.status
               newStatus := newStatus
               reason := body.reason.getD "Status change via system" }]
        else db.auditLogs
      | none => db.auditLogs
    (.ok,
      { inspections := db.inspections.map (fun x => if x.id = id then updated else x)
        certificates := certsAfter
        farms := db.farms
        farmers := db.farmers
        auditLogs := auditAfter })

inductive ApproveResult where
  | ok
  | notFound
  | notCompleted
  | belowThreshold (score : Nat) (requiredThreshold : Nat)
  | farmDataNotFound
  | renderFailure
deriving DecidableEq, Repr

/-- ASCII lowercasing of one character, as JS `toLowerCase` acts on
the ASCII status strings of this code base. -/
def lowerChar (c : Char) : Char :=
  if 65 ≤ c.toNat ∧ c.toNat ≤ 90 then Char.ofNat (c.toNat + 32) else c

/-- `s.toLowerCase()` on the ASCII status strings. -/
def jsToLowerCase (s : String) : String :=
  String.mk (s.data.map lowerChar)

/-- Body of `POST /api/inspections/:id/approve` (src/unnamed/part_005,
lines 556-621) after the row fetch (404 when absent, see
`approveInspection` below); require lower-cased status
`completed`; require `isEligibleForCertification` of the compliance
score, else a 400 carrying the score and the fixed threshold 80; fetch
farm and farmer; render the PDF and only then persist the certificate
row, so a render failure (the catch-all 500) leaves the store
untouched.  The handler deliberately leaves the inspection row
unchanged (the `status: 'approved'` update is commented out) and
writes no audit row. -/
def approveFound (db : DB) (inspection : Inspection) (certNo : String) (today : Date)
    (renderOk : Bool) : ApproveResult × DB :=
  if jsToLowerCase inspection.status = "completed" then
    let score := inspection.complianceScore
    if isEligibleForCertification score then
      match findFarm db inspection.farmId with
      | none => (.farmDataNotFound, db)
      | some farm =>
        match findFarmer db farm.farmerId with
        | none => (.farmDataNotFound, db)
        | some _ =>
          if renderOk then
            (.ok, { db with certificates :=
                db.certificates ++ [mkApproveCertificate db inspection.farmId certNo today] })
          else (.renderFailure, db)
    else (.belowThreshold score 80, db)
  else (.notCompleted, db)

/-- The approve handler proper: row lookup, then `approveFound`. -/
def approveInspection (db : DB) (id : Nat) (certNo : String) (today : Date)
    (renderOk : Bool) : ApproveResult × DB :=
  match findInspection db id with
  | none => (.notFound, db)
  | some inspection => approveFound db inspection certNo today renderOk

/-- Request body of `POST /api/certificates` (fields a claim mentions). -/
structure CreateCertificateBody where
  farmId : Option Nat
  issueDate : Option Date
  expiryDate : Option Date
deriving DecidableEq, Repr

inductive CreateCertificateResult where
  | created
  | missingFields
  | farmNotFound
deriving DecidableEq, Repr

/-- `POST /api/certificates` (src/routes/certificates.js, lines
218-255) together with `Certificate.create` (src/unnamed/part_019):
require `farmId`, `issueDate`, `expiryDate`; require the farm to
exist; then persist a certificate whose issue and expiry dates are
taken verbatim from the request and whose status defaults to
`active`.  No check for an existing active certificate is made. -/
def createCertificate (db : DB) (body : CreateCertificateBody) (certNo : String) :
    CreateCertificateResult × DB :=
  match body.farmId, body.issueDate, body.expiryDate with
  | some farmId, some issueDate, some expiryDate =>
    (match findFarm db farmId with
     | none => (.farmNotFound, db)
     | some _ =>
       let cert : Certificate :=
         { id := nextCertificateId db
           farmId := farmId
           certificateNumber := certNo
           issueDate := issueDate
           expiryDate := expiryDate
           status := "active"
           certificationBody := "Kenya Organic Agriculture Network"
           scope := "Organic crop production"
           pdfUrl := none }
       (.created, { db with certificates := db.certificates ++ [cert] }))
  | _, _, _ => (.missingFields, db)

inductive DeleteResult where
  | ok
  | notFound
deriving DecidableEq, Repr

/-- `db.delete('certificates', certId)`: delete by primary key. -/
def deleteCertificateById (db : DB) (certId : Nat) : DB :=
  { db with certificates := db.certificates.filter (fun c => c.id ≠ certId) }

/-- `DELETE /api/inspections/:id` (src/unnamed/part_006, lines 347-367;
src/unnamed/part_005 is identical): fetch (404 when absent); look up
every certificate whose `farm_id` equals the inspection's farm --
whatever its status -- and delete each by id; then delete the
inspection row. -/
def deleteInspection (db : DB) (id : Nat) : DeleteResult × DB :=
  match findInspection db id with
  | none => (.notFound, db)
  | some inspection =>
    let certificates := db.certificates.filter (fun c => c.farmId = inspection.farmId)
    let db1 := certificates.foldl (fun d c => deleteCertificateById d c.id) db
    (.ok, { db1 with inspections := db1.inspections.filter (fun x => ¬ x.id = id) })

/-! Concrete fixtures used by witnesses and counterexamples. -/

/-- Checklist with every key answered `true` (score 100). -/
def chkAllTrue : Checklist := ⟨aTrue, aTrue, aTrue, aTrue, aTrue⟩

/-- Checklist with every key `null` (the default sent by the creation
handlers): incomplete, score 0. -/
def chkAllNull : Checklist := ⟨aNull, aNull, aNull, aNull, aNull⟩

/-- Checklist of the end-to-end scenario: four of five `true`. -/
def chkFourTrue : Checklist := ⟨aFalse, aTrue, aTrue, aTrue, aTrue⟩

def exFarmer : Farmer := ⟨7⟩

def exFarm : Farm := ⟨1, 7⟩

/-- Active certificate already on file for farm 1. -/
def exActiveCert : Certificate :=
  { id := 1
    farmId := 1
    certificateNumber := "ORG-OLD-1"
    issueDate := ⟨2025, 1, 1⟩
    expiryDate := ⟨2026, 1, 1⟩
    status := "active"
    certificationBody := "Kenya Organic Agriculture Network"
    scope := "Organic crop production"
    pdfUrl := none }

/-- Completed, eligible inspection on farm 1. -/
def exCompletedInspection : Inspection :=
  { id := 1, farmId := 1, status := "completed", complianceScore := 85
    checklist := chkAllTrue }

/-- Store holding farm 1 with an active certificate and a completed,
eligible inspection. -/
def exDbWithActiveCert : DB :=
  { inspections := [exCompletedInspection]
    certificates := [exActiveCert]
    farms := [exFarm]
    farmers := [exFarmer]
    auditLogs := [] }

/-- Same store without the pre-existing certificate. -/
def exDbNoCert : DB :=
  { inspections := [exCompletedInspection]
    certificates := []
    farms := [exFarm]
    farmers := [exFarmer]
    auditLogs := [] }

/-- Completed inspection with score 60: below the threshold. -/
def exLowScoreRow : Inspection :=
  { id := 1, farmId := 1, status := "completed", complianceScore := 60
    checklist := ⟨aTrue, aTrue, aTrue, aFalse, aFalse⟩ }

/-- Store with a low-scoring completed inspection. -/
def exDbLowScore : DB :=
  { inspections := [exLowScoreRow]
    certificates := []
    farms := [exFarm]
    farmers := [exFarmer]
    auditLogs := [] }

/-- Inspection already in the terminal status `approved`. -/
def exApprovedRow : Inspection :=
  { id := 1, farmId := 1, status := "approved", complianceScore := 85
    checklist := chkAllTrue }

/-- Store with an approved (terminal) inspection. -/
def exDbApproved : DB :=
  { inspections := [exApprovedRow]
    certificates := []
    farms := [exFarm]
    farmers := [exFarmer]
    auditLogs := [] }

/-- Scheduled inspection whose checklist is all null (incomplete). -/
def exScheduledRow : Inspection :=
  { id := 1, farmId := 1, status := "scheduled", complianceScore := 0
    checklist := chkAllNull }

/-- Store with a scheduled inspection whose checklist is all null. -/
def exDbScheduled : DB :=
  { inspections := [exScheduledRow]
    certificates := []
    farms := [exFarm]
    farmers := [exFarmer]
    auditLogs := [] }

/-- An update body carrying only a status. -/
def statusOnlyBody (s : String) : UpdateBody :=
  { status := some s, checklist := none, score := none, reason := none }

def exToday : Date := ⟨2025, 6, 1⟩

/-! General lemmas about the lookups and the update operation, shared
by several of the claim theorems below. -/

/-- A row found under key `id` carries that id. -/
theorem findInspection_id {db : DB} {id : Nat} {i : Inspection}
    (h : findInspection db id = some i) : i.id = id := by
  have hp := List.find?_some h
  simpa using hp

/-- `find?` by id over a by-id replacement returns the replacement. -/
theorem find_replace_row {l : List Inspection} {id : Nat} {i : Inspection}
    (j : Inspection) (h : l.find? (fun x => x.id = id) = some i) (hj : j.id = id) :
    (l.map (fun x => if x.id = id then j else x)).find? (fun x => x.id = id) = some j := by
  induction l with
  | nil => simp at h
  | cons a l ih =>
    by_cases ha : a.id = id
    · simp [List.find?_cons, ha, hj]
    · rw [List.find?_cons_of_neg _ (by simp [ha])] at h
      simp only [List.map_cons, if_neg ha]
      rw [List.find?_cons_of_neg _ (by simp [ha])]
      exact ih h

/-- The update handler succeeds whenever the row exists. -/
theorem updateInspection_fst {db : DB} {id : Nat} {i : Inspection}
    (body : UpdateBody) (today : Date) (certNo : String) (renderOk : Bool)
    (h : findInspection db id = some i) :
    (updateInspection db id body today certNo renderOk).1 = UpdateResult.ok := by
  unfold updateInspection
  rw [h]

/-- The inspections table after an update: the row is replaced by
`applyUpdate`. -/
theorem updateInspection_inspections {db : DB} {id : Nat} {i : Inspection}
    (body : UpdateBody) (today : Date) (certNo : String) (renderOk : Bool)
    (h : findInspection db id = some i) :
    (updateInspection db id body today certNo renderOk).2.inspections =
      db.inspections.map (fun x => if x.id = id then applyUpdate i body else x) := by
  unfold updateInspection
  rw [h]

/-- Reading the updated row back gives exactly `applyUpdate`. -/
theorem updateInspection_find {db : DB} {id : Nat} {i : Inspection}
    (body : UpdateBody) (today : Date) (certNo : String) (renderOk : Bool)
    (h : findInspection db id = some i) :
    findInspection (updateInspection db id body today certNo renderOk).2 id =
      some (applyUpdate i body) := by
  show ((updateInspection db id body today certNo renderOk).2.inspections).find?
      (fun x => x.id = id) = some (applyUpdate i body)
  rw [updateInspection_inspections body today certNo renderOk h]
  have hi : i.id = id := findInspection_id h
  have hj : (applyUpdate i body).id = id := hi
  exact find_replace_row (applyUpdate i body) h hj

/-- When the row exists, the approve handler is its body. -/
theorem approveInspection_found {db : DB} {id : Nat} {i : Inspection}
    (certNo : String) (today : Date) (renderOk : Bool)
    (h : findInspection db id = some i) :
    approveInspection db id certNo today renderOk =
      approveFound db i certNo today renderOk := by
  unfold approveInspection
  rw [h]

/-- A failing renderer leaves the approve handler's store untouched:
the render step precedes the insert on every path. -/
theorem approveFound_render_failure (db : DB) (i : Inspection)
    (certNo : String) (today : Date) :
    (approveFound db i certNo today false).2 = db := by
  unfold approveFound
  by_cases h1 : jsToLowerCase i.status = "completed"
  · by_cases h2 : isEligibleForCertification i.complianceScore = true
    · cases hf : findFarm db i.farmId with
      | none => simp [h1, h2, hf]
      | some farm =>
        cases hfr : findFarmer db farm.farmerId with
        | none => simp [h1, h2, hf, hfr]
        | some u => simp [h1, h2, hf, hfr]
    · simp [h1, h2]
  · simp [h1]

/-- Successful approval: the store gains exactly the one new
certificate row and nothing else changes. -/
theorem approveFound_success {db : DB} {i : Inspection} {farm : Farm}
    (certNo : String) (today : Date)
    (hst : jsToLowerCase i.status = "completed")
    (hsc : 80 ≤ i.complianceScore)
    (hfarm : findFarm db i.farmId = some farm)
    (hfarmer : (findFarmer db farm.farmerId).isSome = true) :
    approveFound db i certNo today true =
      (ApproveResult.ok,
       { db with certificates :=
           db.certificates ++ [mkApproveCertificate db i.farmId certNo today] }) := by
  unfold approveFound
  have he : isEligibleForCertification i.complianceScore = true := by
    simpa [isEligibleForCertification] using hsc
  obtain ⟨u, hu⟩ := Option.isSome_iff_exists.mp hfarmer
  simp [hst, he, hfarm, hu]

/-- Claim C3: approving an inspection in status `completed` whose
compliance score is below 80 fails with the below-threshold error
carrying the score and the fixed threshold 80; the whole store -- and
so the inspection's `completed` status -- is unchanged and no
certificate row is created; eligibility holds iff the score is at
least 80. -/
theorem c3_below_threshold_rejects (db : DB) (id : Nat) (i : Inspection)
    (certNo : String) (today : Date) (renderOk : Bool)
    (h : findInspection db id = some i)
    (hst : jsToLowerCase i.status = "completed")
    (hlow : i.complianceScore < 80) :
    approveInspection db id certNo today renderOk =
      (ApproveResult.belowThreshold i.complianceScore 80, db) ∧
    (∀ s : Nat, isEligibleForCertification s = true ↔ 80 ≤ s) := by
  constructor
  · rw [approveInspection_found certNo today renderOk h]
    have he : isEligibleForCertification i.complianceScore = false := by
      simp [isEligibleForCertification, Nat.not_le.mpr hlow]
    simp [approveFound, hst, he]
  · intro s
    simp [isEligibleForCertification]

/-- Witness for C3: the 60-scoring completed inspection of
`exDbLowScore` is rejected with its score and threshold 80, leaving
the store untouched. -/
theorem c3_below_threshold_rejects_witness :
    approveInspection exDbLowScore 1 "C" exToday true =
      (ApproveResult.belowThreshold 60 80, exDbLowScore) ∧
    (∀ s : Nat, isEligibleForCertification s = true ↔ 80 ≤ s) :=
  c3_below_threshold_rejects exDbLowScore 1 exLowScoreRow "C" exToday true
    (by decide) (by decide) (by decide)

/-- Claim C9: when the PDF renderer fails, the approve handler leaves
the store completely unchanged (its render step precedes persistence),
and the auto-issuance block of the update handler persists no
certificate either: no active certificate without a retrievable PDF
reference survives a render failure. -/
theorem c9_render_failure_creates_no_certificate (db : DB) (id : Nat)
    (certNo : String) (today : Date) (body : UpdateBody) :
    (approveInspection db id certNo today false).2 = db ∧
    (updateInspection db id body today certNo false).2.certificates = db.certificates := by
  constructor
  · unfold approveInspection
    cases h : findInspection db id with
    | none => rfl
    | some i => exact approveFound_render_failure db i certNo today
  · unfold updateInspection
    cases h : findInspection db id with
    | none => rfl
    | some i => simp

/-- Claim C7 (amended): the update handler validates no transition
graph: whatever the stored status -- the terminal `approved`,
`rejected` and `cancelled` included -- any requested non-empty status
string is applied and the update succeeds; an empty (falsy) status is
silently dropped by the model's `if (data.status)` guard with the old
status kept, the request still succeeding; no InvalidTransition
failure exists on this path. -/
theorem c7_any_transition_applied (db : DB) (id : Nat) (i : Inspection)
    (body : UpdateBody) (s : String) (today : Date) (certNo : String) (renderOk : Bool)
    (h : findInspection db id = some i)
    (hs : body.status = some s)
    (hne : s ≠ "") :
    (updateInspection db id body today certNo renderOk).1 = UpdateResult.ok ∧
    (findInspection (updateInspection db id body today certNo renderOk).2 id).map
        (fun j => j.status) = some s := by
  refine ⟨updateInspection_fst body today certNo renderOk h, ?_⟩
  rw [updateInspection_find body today certNo renderOk h]
  simp [applyUpdate, hs, hne]

/-- Counterexample to C7 as stated: from the terminal status
`approved`, the backward transition to `scheduled` succeeds and is
stored; nothing fails with InvalidTransition. -/
theorem c7_approved_to_scheduled_succeeds :
    (updateInspection exDbApproved 1 (statusOnlyBody "scheduled") exToday "C" true).1 =
      UpdateResult.ok ∧
    (findInspection
        (updateInspection exDbApproved 1 (statusOnlyBody "scheduled") exToday "C" true).2 1).map
        (fun j => j.status) = some "scheduled" := by decide

/-- Witness for the amended C7 theorem at a concrete input. -/
theorem c7_any_transition_applied_witness :
    (updateInspection exDbApproved 1 (statusOnlyBody "in_progress") exToday "C" true).1 =
      UpdateResult.ok ∧
    (findInspection
        (updateInspection exDbApproved 1 (statusOnlyBody "in_progress") exToday "C" true).2 1).map
        (fun j => j.status) = some "in_progress" :=
  c7_any_transition_applied exDbApproved 1 exApprovedRow (statusOnlyBody "in_progress")
    "in_progress" exToday "C" true (by decide) rfl (by decide)

/-- Claim C6 (amended): the update handler performs no
checklist-completeness check: a requested transition to `completed`
succeeds and is stored for every inspection, its checklist complete or
not; `isChecklistComplete` exists in the code base but is not invoked
on this path, and no IncompleteChecklist failure exists. -/
theorem c6_completes_without_checklist_check (db : DB) (id : Nat) (i : Inspection)
    (body : UpdateBody) (today : Date) (certNo : String) (renderOk : Bool)
    (h : findInspection db id = some i)
    (hs : body.status = some "completed") :
    (updateInspection db id body today certNo renderOk).1 = UpdateResult.ok ∧
    (findInspection (updateInspection db id body today certNo renderOk).2 id).map
        (fun j => j.status) = some "completed" := by
  refine ⟨updateInspection_fst body today certNo renderOk h, ?_⟩
  rw [updateInspection_find body today certNo renderOk h]
  simp [applyUpdate, hs]

/-- Counterexample to C6 as stated: the scheduled inspection of
`exDbScheduled` has an all-null (incomplete) checklist, yet the
transition to `completed` succeeds and is stored instead of failing
with IncompleteChecklist. -/
theorem c6_incomplete_checklist_reaches_completed :
    isChecklistComplete chkAllNull = false ∧
    (updateInspection exDbScheduled 1 (statusOnlyBody "completed") exToday "C" true).1 =
      UpdateResult.ok ∧
    (findInspection
        (updateInspection exDbScheduled 1 (statusOnlyBody "completed") exToday "C" true).2 1).map
        (fun j => j.status) = some "completed" := by decide

/-- Witness for the amended C6 theorem at a concrete input. -/
theorem c6_completes_without_checklist_check_witness :
    (updateInspection exDbLowScore 1 (statusOnlyBody "completed") exToday "C" true).1 =
      UpdateResult.ok ∧
    (findInspection
        (updateInspection exDbLowScore 1 (statusOnlyBody "completed") exToday "C" true).2 1).map
        (fun j => j.status) = some "completed" :=
  c6_completes_without_checklist_check exDbLowScore 1 exLowScoreRow
    (statusOnlyBody "completed") exToday "C" true (by decide) rfl

/-- Counterexample to C1 as stated: farm 1 already holds an active
certificate, yet approving the completed eligible inspection succeeds
and persists a second active certificate for the same farm, and the
direct certificate-creation endpoint likewise creates one with no
duplicate check; no DuplicateCertificate failure exists. -/
theorem c1_second_issuance_succeeds :
    (approveInspection exDbWithActiveCert 1 "CERT-2" exToday true).1 = ApproveResult.ok ∧
    (activeCertificatesForFarm
        (approveInspection exDbWithActiveCert 1 "CERT-2" exToday true).2 1).length = 2 ∧
    (createCertificate exDbWithActiveCert
        { farmId := some 1, issueDate := some ⟨2025, 5, 10⟩
          expiryDate := some ⟨2025, 5, 11⟩ } "N").1 = CreateCertificateResult.created ∧
    (activeCertificatesForFarm
        (createCertificate exDbWithActiveCert
          { farmId := some 1, issueDate := some ⟨2025, 5, 10⟩
            expiryDate := some ⟨2025, 5, 11⟩ } "N").2 1).length = 2 := by decide

/-- Claim C1 (amended): only the auto-issuance block of the update
handler guards the at-most-one-active invariant, and it skips
silently: when an active certificate exists for the inspection's farm,
any update leaves the certificates table unchanged, with no
DuplicateCertificate error.  The approve handler performs no such
check: under the same circumstances it succeeds and appends one more
active certificate for the farm, so several active certificates per
farm are reachable. -/
theorem c1_only_update_path_guards_duplicates (db : DB) (id : Nat) (i : Inspection)
    (farm : Farm) (body : UpdateBody) (today : Date) (certNo : String) (renderOk : Bool)
    (h : findInspection db id = some i)
    (hactive : activeCertificatesForFarm db i.farmId ≠ [])
    (hst : jsToLowerCase i.status = "completed")
    (hsc : 80 ≤ i.complianceScore)
    (hfarm : findFarm db i.farmId = some farm)
    (hfarmer : (findFarmer db farm.farmerId).isSome = true) :
    (updateInspection db id body today certNo renderOk).2.certificates = db.certificates ∧
    approveInspection db id certNo today true =
      (ApproveResult.ok,
       { db with certificates :=
           db.certificates ++ [mkApproveCertificate db i.farmId certNo today] }) ∧
    (mkApproveCertificate db i.farmId certNo today).status = "active" ∧
    (mkApproveCertificate db i.farmId certNo today).farmId = i.farmId := by
  refine ⟨?_, ?_, rfl, rfl⟩
  · unfold updateInspection
    rw [h]
    have hd : decide (activeCertificatesForFarm db i.farmId = []) = false :=
      decide_eq_false hactive
    simp [hd]
  · rw [approveInspection_found certNo today true h]
    exact approveFound_success certNo today hst hsc hfarm hfarmer

/-- Witness for the amended C1 theorem: the stores of
`exDbWithActiveCert` at a concrete update and approve call. -/
theorem c1_only_update_path_guards_duplicates_witness :
    (updateInspection exDbWithActiveCert 1 (statusOnlyBody "completed")
        exToday "X" true).2.certificates = exDbWithActiveCert.certificates ∧
    approveInspection exDbWithActiveCert 1 "X" exToday true =
      (ApproveResult.ok,
       { exDbWithActiveCert with certificates :=
           exDbWithActiveCert.certificates ++
             [mkApproveCertificate exDbWithActiveCert 1 "X" exToday] }) ∧
    (mkApproveCertificate exDbWithActiveCert 1 "X" exToday).status = "active" ∧
    (mkApproveCertificate exDbWithActiveCert 1 "X" exToday).farmId = 1 :=
  c1_only_update_path_guards_duplicates exDbWithActiveCert 1 exCompletedInspection exFarm
    (statusOnlyBody "completed") exToday "X" true (by decide) (by decide) (by decide)
    (by decide) (by decide) (by decide)

/-- Counterexample to C2 as stated: a successful approve leaves the
inspection in status `completed` (it never becomes `approved`) and
appends no status-history record. -/
theorem c2_approve_keeps_status_and_history :
    (approveInspection exDbNoCert 1 "CERT-9" exToday true).1 = ApproveResult.ok ∧
    (findInspection (approveInspection exDbNoCert 1 "CERT-9" exToday true).2 1).map
        (fun j => j.status) = some "completed" ∧
    (approveInspection exDbNoCert 1 "CERT-9" exToday true).2.auditLogs = [] := by decide

/-- Claim C2 (amended): on a successful approve a certificate is
issued for the inspection's farm, but the inspection row is left
untouched -- its status stays `completed`, not `approved` -- and no
status-history record is appended; the status-history insert lives
only in the generic update handler. -/
theorem c2_approve_issues_but_mutates_nothing_else (db : DB) (id : Nat) (i : Inspection)
    (farm : Farm) (certNo : String) (today : Date)
    (h : findInspection db id = some i)
    (hst : jsToLowerCase i.status = "completed")
    (hsc : 80 ≤ i.complianceScore)
    (hfarm : findFarm db i.farmId = some farm)
    (hfarmer : (findFarmer db farm.farmerId).isSome = true) :
    (approveInspection db id certNo today true).1 = ApproveResult.ok ∧
    (approveInspection db id certNo today true).2.certificates =
      db.certificates ++ [mkApproveCertificate db i.farmId certNo today] ∧
    (approveInspection db id certNo today true).2.inspections = db.inspections ∧
    (approveInspection db id certNo today true).2.auditLogs = db.auditLogs := by
  rw [approveInspection_found certNo today true h,
      approveFound_success certNo today hst hsc hfarm hfarmer]
  exact ⟨rfl, rfl, rfl, rfl⟩

/-- Witness for the amended C2 theorem at a concrete input. -/
theorem c2_approve_issues_but_mutates_nothing_else_witness :
    (approveInspection exDbNoCert 1 "Y" exToday true).1 = ApproveResult.ok ∧
    (approveInspection exDbNoCert 1 "Y" exToday true).2.certificates =
      exDbNoCert.certificates ++ [mkApproveCertificate exDbNoCert 1 "Y" exToday] ∧
    (approveInspection exDbNoCert 1 "Y" exToday true).2.inspections =
      exDbNoCert.inspections ∧
    (approveInspection exDbNoCert 1 "Y" exToday true).2.auditLogs =
      exDbNoCert.auditLogs :=
  c2_approve_issues_but_mutates_nothing_else exDbNoCert 1 exCompletedInspection exFarm
    "Y" exToday (by decide) (by decide) (by decide) (by decide) (by decide)

/-- Counterexample to C8 as stated: the two expiry functions disagree
(one year against three), and the direct certificate-creation endpoint
persists a certificate whose expiry is one day after its issue date --
not the issue date plus any fixed validity period. -/
theorem c8_validity_period_not_fixed :
    calculateExpiryDate ⟨2025, 5, 10⟩ = ⟨2026, 5, 10⟩ ∧
    InspectionController.calculateExpiryDate ⟨2025, 5, 10⟩ = ⟨2028, 5, 10⟩ ∧
    InspectionController.calculateExpiryDate ⟨2025, 5, 10⟩ ≠
      calculateExpiryDate ⟨2025, 5, 10⟩ ∧
    ((createCertificate exDbNoCert
        { farmId := some 1, issueDate := some ⟨2025, 5, 10⟩
          expiryDate := some ⟨2025, 5, 11⟩ } "N").2.certificates.map
        (fun c2 => (c2.issueDate, c2.expiryDate, c2.status))) =
      [(⟨2025, 5, 10⟩, ⟨2025, 5, 11⟩, "active")] := by decide

/-- Claim C8 (amended): the route utilities' `calculateExpiryDate`
returns the issue date plus one year (with the JS Feb-29 rollover),
and a certificate issued by the approve path carries issue date
`today` and expiry `calculateExpiryDate today`; the controller path
adds three years instead, and the direct certificate-creation endpoint
persists a client-supplied expiry unchanged, so not every certificate
obeys one fixed validity period. -/
theorem c8_expiry_one_year_on_route_paths (db : DB) (id : Nat) (i : Inspection)
    (farm : Farm) (certNo : String) (today : Date) (d : Date)
    (h : findInspection db id = some i)
    (hst : jsToLowerCase i.status = "completed")
    (hsc : 80 ≤ i.complianceScore)
    (hfarm : findFarm db i.farmId = some farm)
    (hfarmer : (findFarmer db farm.farmerId).isSome = true)
    (hd : ¬(d.month = 2 ∧ d.day = 29)) :
    (approveInspection db id certNo today true).2.certificates =
      db.certificates ++ [mkApproveCertificate db i.farmId certNo today] ∧
    (mkApproveCertificate db i.farmId certNo today).issueDate = today ∧
    (mkApproveCertificate db i.farmId certNo today).expiryDate =
      calculateExpiryDate today ∧
    calculateExpiryDate d = ⟨d.year + 1, d.month, d.day⟩ ∧
    InspectionController.calculateExpiryDate d = ⟨d.year + 3, d.month, d.day⟩ := by
  refine ⟨?_, rfl, rfl, ?_, ?_⟩
  · rw [approveInspection_found certNo today true h,
        approveFound_success certNo today hst hsc hfarm hfarmer]
  · unfold calculateExpiryDate setFullYear
    rw [if_neg]
    intro hcon
    exact hd ⟨hcon.1, hcon.2.1⟩
  · unfold InspectionController.calculateExpiryDate setFullYear
    rw [if_neg]
    intro hcon
    exact hd ⟨hcon.1, hcon.2.1⟩

/-- Witness for the amended C8 theorem at a concrete input. -/
theorem c8_expiry_one_year_on_route_paths_witness :
    (approveInspection exDbNoCert 1 "Z" exToday true).2.certificates =
      exDbNoCert.certificates ++ [mkApproveCertificate exDbNoCert 1 "Z" exToday] ∧
    (mkApproveCertificate exDbNoCert 1 "Z" exToday).issueDate = exToday ∧
    (mkApproveCertificate exDbNoCert 1 "Z" exToday).expiryDate =
      calculateExpiryDate exToday ∧
    calculateExpiryDate ⟨2030, 7, 4⟩ = ⟨2031, 7, 4⟩ ∧
    InspectionController.calculateExpiryDate ⟨2030, 7, 4⟩ = ⟨2033, 7, 4⟩ :=
  c8_expiry_one_year_on_route_paths exDbNoCert 1 exCompletedInspection exFarm
    "Z" exToday ⟨2030, 7, 4⟩ (by decide) (by decide) (by decide) (by decide)
    (by decide) (by decide)

/-- Claim C5 (amended): after an update that supplies a checklist and
no score field, the stored compliance score equals
`calculateComplianceScore` of the stored checklist; the handler lets a
client-supplied score field override the computed value, however, so
in general a stored score may deviate from the formula. -/
theorem c5_checklist_update_stores_formula (db : DB) (id : Nat) (i : Inspection)
    (body : UpdateBody) (c : Checklist) (today : Date) (certNo : String) (renderOk : Bool)
    (h : findInspection db id = some i)
    (hc : body.checklist = some c)
    (hs : body.score = none) :
    (findInspection (updateInspection db id body today certNo renderOk).2 id).map
        (fun j => (j.complianceScore, j.checklist)) =
      some (calculateComplianceScore c.answers, c) := by
  rw [updateInspection_find body today certNo renderOk h]
  simp [applyUpdate, newComplianceScore, hc, hs]

/-- Counterexample to C5 as stated: an update carrying an all-true
checklist (formula value 100) together with the frontend score field 7
stores 7, so the stored score deviates from the formula over the
stored checklist. -/
theorem c5_score_field_overrides_formula :
    (findInspection
        (updateInspection exDbScheduled 1
          { status := none, checklist := some chkAllTrue, score := some 7, reason := none }
          exToday "C" true).2 1).map
        (fun j => (j.complianceScore, j.checklist)) = some (7, chkAllTrue) ∧
    calculateComplianceScore chkAllTrue.answers = 100 := by decide

/-- Witness for the amended C5 theorem at a concrete input. -/
theorem c5_checklist_update_stores_formula_witness :
    (findInspection
        (updateInspection exDbScheduled 1
          { status := none, checklist := some chkFourTrue, score := none, reason := none }
          exToday "C" true).2 1).map
        (fun j => (j.complianceScore, j.checklist)) =
      some (calculateComplianceScore chkFourTrue.answers, chkFourTrue) :=
  c5_checklist_update_stores_formula exDbScheduled 1 exScheduledRow
    { status := none, checklist := some chkFourTrue, score := none, reason := none }
    chkFourTrue exToday "C" true (by decide) rfl rfl

/-- Counterexample to C4 as stated: on a checklist whose items are one
`true` answer and one `null` answer, the code scores 50 -- the `null`
item passes the `!== undefined` filter and lands in the denominator --
while the claim's formula over items answered `true` or `false`
gives 100. -/
theorem c4_null_answer_counted_in_denominator :
    calculateComplianceScore [aTrue, aNull] = 50 ∧
    specComplianceScore [aTrue, aNull] = 100 ∧
    calculateComplianceScore [aTrue, aNull] ≠ specComplianceScore [aTrue, aNull] := by
  decide

/-- Claim C4 (amended): on checklists that carry no `null` answer --
i.e. where unanswered items are represented by `undefined`, as
`createChecklist` produces them -- the computed score equals
round-half-up of 100 times the `true` count over the count of items
answered `true` or `false`; the empty checklist and the all-undefined
checklist both score 0 rather than erroring.  (With `null` answers the
code's denominator also counts the `null` items.) -/
theorem c4_score_matches_spec_without_null (l : List Answer)
    (h : aNull ∉ l) :
    calculateComplianceScore l = specComplianceScore l ∧
    calculateComplianceScore [] = 0 ∧
    calculateComplianceScore (List.replicate 5 aUndef) = 0 := by
  refine ⟨?_, rfl, by decide⟩
  have hf : l.filter (fun item => item ≠ aUndef) =
      l.filter (fun item => item = aTrue ∨ item = aFalse) := by
    apply List.filter_congr
    intro x hx
    cases x with
    | aTrue => decide
    | aFalse => decide
    | aNull => exact absurd hx h
    | aUndef => decide
  unfold calculateComplianceScore specComplianceScore
  rw [hf]

/-- Witness for the amended C4 theorem at a concrete input. -/
theorem c4_score_matches_spec_without_null_witness :
    aNull ∉ [aTrue, aFalse, aUndef] ∧
    (calculateComplianceScore [aTrue, aFalse, aUndef] =
        specComplianceScore [aTrue, aFalse, aUndef] ∧
     calculateComplianceScore [] = 0 ∧
     calculateComplianceScore (List.replicate 5 aUndef) = 0) :=
  ⟨by decide, c4_score_matches_spec_without_null [aTrue, aFalse, aUndef] (by decide)⟩

/-- Folding certificate-by-id deletions over the store only shrinks
the certificates table, by the composed id filter. -/
theorem foldl_delete_certificates (certs : List Certificate) (db : DB) :
    certs.foldl (fun d c => deleteCertificateById d c.id) db =
      { db with certificates :=
          certs.foldl (fun l c => l.filter (fun y => ¬ y.id = c.id)) db.certificates } := by
  induction certs generalizing db with
  | nil => rfl
  | cons c cs ih =>
    simp only [List.foldl_cons]
    rw [ih]
    rfl

/-- A fold of by-id filters is one filter by the conjunction. -/
theorem foldl_filter_by_id (certs : List Certificate) (l0 : List Certificate) :
    certs.foldl (fun l c => l.filter (fun y => ¬ y.id = c.id)) l0 =
      l0.filter (fun y => certs.all (fun c => ¬ y.id = c.id)) := by
  induction certs generalizing l0 with
  | nil => simp
  | cons c cs ih =>
    simp only [List.foldl_cons]
    rw [ih, List.filter_filter]
    apply List.filter_congr
    intro x hx
    simp only [List.all_cons]
    rw [Bool.and_comm]

/-- The delete handler's final store, element by element. -/
theorem deleteInspection_found {db : DB} {id : Nat} {i : Inspection}
    (h : findInspection db id = some i) :
    deleteInspection db id =
      (DeleteResult.ok,
       { inspections := db.inspections.filter (fun x => ¬ x.id = id)
         certificates := db.certificates.filter (fun y =>
             (db.certificates.filter (fun c => c.farmId = i.farmId)).all
               (fun c => ¬ y.id = c.id))
         farms := db.farms
         farmers := db.farmers
         auditLogs := db.auditLogs }) := by
  unfold deleteInspection
  rw [h]
  simp only []
  rw [foldl_delete_certificates, foldl_filter_by_id]

/-- Claim C10: deleting an inspection also deletes every certificate
whose farm id equals the inspection's farm id -- whatever the
certificate's status, active ones included, and however unrelated to
the inspection -- and removes the inspection row; under the primary
key invariant (no two certificate rows share an id) nothing else is
deleted from the certificates table. -/
theorem c10_delete_cascades_farm_certificates (db : DB) (id : Nat) (i : Inspection)
    (h : findInspection db id = some i)
    (hids : (db.certificates.map (fun c => c.id)).Nodup) :
    (deleteInspection db id).1 = DeleteResult.ok ∧
    (deleteInspection db id).2.certificates =
      db.certificates.filter (fun c => ¬ c.farmId = i.farmId) ∧
    (deleteInspection db id).2.inspections =
      db.inspections.filter (fun x => ¬ x.id = id) := by
  rw [deleteInspection_found h]
  refine ⟨rfl, ?_, rfl⟩
  apply List.filter_congr
  intro x hx
  by_cases hfarm : x.farmId = i.farmId
  · have hmem : x ∈ db.certificates.filter (fun c => c.farmId = i.farmId) := by
      simp [List.mem_filter, hx, hfarm]
    have hall : ((db.certificates.filter (fun c => c.farmId = i.farmId)).all
        (fun c => ¬ x.id = c.id)) = false := by
      rw [Bool.eq_false_iff]
      intro htrue
      have := List.all_eq_true.mp htrue x hmem
      simp at this
    rw [hall]
    simp [hfarm]
  · have hall : ((db.certificates.filter (fun c => c.farmId = i.farmId)).all
        (fun c => ¬ x.id = c.id)) = true := by
      rw [List.all_eq_true]
      intro c hc
      have hcmem := List.mem_filter.mp hc
      have hcfarm : c.farmId = i.farmId := by
        have := hcmem.2
        simpa using this
      have hne : x ≠ c := by
        intro hxc
        exact hfarm (hxc ▸ hcfarm)
      have hneid : x.id ≠ c.id := by
        intro hid
        exact hne (List.inj_on_of_nodup_map hids hx hcmem.1 hid)
      simpa using hneid
    rw [hall]
    simp [hfarm]

/-- Witness for C10: deleting inspection 1 of `exDbWithActiveCert`
removes the farm's active certificate and the inspection row. -/
theorem c10_delete_cascades_farm_certificates_witness :
    (deleteInspection exDbWithActiveCert 1).1 = DeleteResult.ok ∧
    (deleteInspection exDbWithActiveCert 1).2.certificates =
      exDbWithActiveCert.certificates.filter (fun c => ¬ c.farmId = 1) ∧
    (deleteInspection exDbWithActiveCert 1).2.inspections =
      exDbWithActiveCert.inspections.filter (fun x => ¬ x.id = 1) :=
  c10_delete_cascades_farm_certificates exDbWithActiveCert 1 exCompletedInspection
    (by decide) (by decide)
